import Mathlib

/-!
Verification of the package-manifest normalization core of this repository:
the canonical package model (`src/packagedcode/models.py`) and the PHP
Composer manifest parser (`src/packagedcode/phpcomposer.py`).

The embedding below translates the Python source into Lean:
- decoded JSON documents (what `json.load` with an `OrderedDict` pairs hook
  returns) become the `Json` inductive; decoded objects are ordered key/value
  lists;
- Python truthiness (`if value:`) becomes `Json.truthy`;
- code that can raise (`AttributeError`, `TypeError`, `KeyError`,
  `ValueError`) returns `Except PyErr _`;
- the `Package` record keeps the attributes that the Composer parser reads or
  writes, with the defaults that `models.py` declares (plain fields default to
  `none`, i.e. Python `None`).
-/

/-- Decoded JSON value, as produced by `json.load(loc, object_pairs_hook=OrderedDict)`
in `phpcomposer.py` (numbers are modelled as integers; the manifests the parser
handles carry no floats). An object is an ordered association list; the decode
step collapses duplicate keys, so objects reaching the parser have unique keys. -/
inductive Json where
  | null : Json
  | bool (b : Bool) : Json
  | num (n : Int) : Json
  | str (s : String) : Json
  | arr (elems : List Json) : Json
  | obj (entries : List (String × Json)) : Json
deriving Repr

/-- Python truthiness of a decoded JSON value (`if value:`). -/
def Json.truthy : Json → Bool
  | .null => false
  | .bool b => b
  | .num n => n != 0
  | .str s => s != ""
  | .arr l => !l.isEmpty
  | .obj o => !o.isEmpty

/-- Python 2 `repr` of a decoded JSON value: strings decode to `unicode` and
print as `u'...'`, objects decode to `OrderedDict` and print as
`OrderedDict([...])`, `None`/`True`/`False` print capitalized. -/
def pyRepr : Json → String
  | .null => "None"
  | .bool true => "True"
  | .bool false => "False"
  | .num n => toString n
  | .str s => "u\x27" ++ s ++ "\x27"
  | .arr l => "[" ++ String.intercalate ", " (l.attach.map (fun x => pyRepr x.val)) ++ "]"
  | .obj o => "OrderedDict([" ++ String.intercalate ", "
      (o.attach.map (fun x => "(u\x27" ++ x.val.1 ++ "\x27, " ++ pyRepr x.val.2 ++ ")")) ++ "])"
decreasing_by
  · obtain ⟨v, hmem⟩ := x
    have := List.sizeOf_lt_of_mem hmem
    simp_all
    omega
  · obtain ⟨⟨k, v⟩, hmem⟩ := x
    have := List.sizeOf_lt_of_mem hmem
    simp_all
    omega

/-- Strip every character of `cs` from both ends of `s`, the behaviour of
Python `str.strip(chars)`. -/
def stripChars (cs : List Char) (s : String) : String :=
  String.mk (((s.data.dropWhile (fun c => cs.contains c)).reverse.dropWhile
    (fun c => cs.contains c)).reverse)

/-- The characters Python `str.strip()` removes when called with no argument. -/
def pyWhitespace : List Char := [' ', '\t', '\n', '\r', '\x0b', '\x0c']

/-- Python `str.strip()` with no argument: surrounding whitespace removed. -/
def pyStrip (s : String) : String := stripChars pyWhitespace s

/-- Test whether `needle` occurs as a contiguous run inside `hay`. -/
def charsInfix (needle : List Char) : List Char → Bool
  | [] => needle.isEmpty
  | c :: t => needle.isPrefixOf (c :: t) || charsInfix needle t

/-- Python `needle in hay` on strings: substring containment. -/
def pyInStr (needle hay : String) : Bool := charsInfix needle.data hay.data

/-- Python `s.startswith(pre)`. -/
def pyStartsWith (s pre : String) : Bool := pre.data.isPrefixOf s.data

/-- The part of `s` before the first occurrence of `/`, i.e. the first component
of Python `s.partition(\x27/\x27)`. -/
def pyPartitionSlashBefore (s : String) : String :=
  String.mk (s.data.takeWhile (fun c => c != '/'))

/-- A raised Python exception, as the parser can produce them. -/
inductive PyErr where
  | attributeError (attr : String)
  | typeError (msg : String)
  | keyError (key : String)
  | valueError (msg : String)
deriving Repr, DecidableEq

/-- Lookup in a decoded JSON object, the behaviour of `OrderedDict.get`:
`none` models Python `None` for a missing key. Duplicate keys cannot survive
JSON decoding, but if present the last binding wins, as in the `OrderedDict`
pairs hook. -/
def pyGet (m : List (String × Json)) (k : String) : Option Json :=
  ((m.filter (fun kv => kv.1 == k)).getLast?).map (fun kv => kv.2)

/-- First-match association lookup, used for the `dependencies` mapping of a
`Package` (a Python dict keyed by dependency group; the code never creates
duplicate group keys). -/
def assocGet {α : Type} (l : List (String × α)) (k : String) : Option α :=
  match l with
  | [] => none
  | kv :: rest => if kv.1 == k then some kv.2 else assocGet rest k

/-- Python `value == "lit"` between a decoded JSON value (or `None`) and a Python
string literal: true exactly for the equal string. -/
def jsonEqStr (v : Option Json) (lit : String) : Bool :=
  match v with
  | some (.str s) => s == lit
  | _ => false

/-- Python `value or None`: the value when truthy, otherwise `None`. -/
def orNone (v : Option Json) : Option Json :=
  match v with
  | some j => if j.truthy then some j else none
  | none => none

/-- A party (person, project or organization) related to a package: the
`Party` model of `models.py` lines 163-189, whose only declared fields are
`type`, `name`, `url` and `email` — there is no `role` field. The Composer
parser never succeeds in constructing one: its `Party(...)` calls sit inside
`package.parties.append(...)` expressions whose attribute lookup fails first
(see `author_mapper` and `vendor_mapper` below). -/
structure Party where
  ptype : Option String := none
  name : Option Json := none
  url : Option Json := none
  email : Option Json := none
deriving Repr

/-- Source `models.py` party-type constant `party_person`. -/
def party_person : String := "person"

/-- Source `models.py` dependency-group constants. -/
def dep_runtime : String := "runtime"

def dep_dev : String := "development"

/-- The closed `DEPENDENCY_GROUPS` enumeration of `models.py`. -/
def DEPENDENCY_GROUPS : List String :=
  [dep_runtime, dep_dev, "optional", "test", "build", "continuous integration", "bundled"]

/-- The closed `VCS_CHOICES` enumeration of `models.py` line 424: the declared
legal values of `Package.vcs_tool`. -/
def VCS_CHOICES : List String := ["git", "svn", "hg", "bzr", "cvs"]

/-- One entry of a dependency group. `deps_mapper` in `phpcomposer.py` builds
each entry as `models.BasePackage(type=\x27phpcomposer\x27, name=name,
version=version)`: a type, the manifest key, and the raw manifest value. -/
structure DepEntry where
  dtype : String
  name : String
  version : Json
deriving Repr

/-- The canonical package record (`models.py` `Package`), restricted to the
attributes the Composer parser reads or writes, with the declared defaults:
plain fields default to Python `None`, `dependencies` maps a dependency
group to its entries. The class-level defaults of `PHPComposerPackage`
pre-fill `type` and `primary_language`. `models.py` declares NO `parties`
attribute (it has seven separate party lists — `authors`, `maintainers`,
`contributors`, `owners`, `packagers`, `distributors`, `vendors` — none of
which the parser ever writes), so the parser statements that read
`package.parties` raise `AttributeError` and are modelled as errors, not as
fields of this record. -/
structure Package where
  ptype : String := "phpcomposer"
  primary_language : String := "PHP"
  name : Option Json := none
  version : Option Json := none
  summary : Option Json := none
  keywords : Option Json := none
  homepage_url : Option Json := none
  asserted_license : Option String := none
  bug_tracking_url : Option Json := none
  code_view_url : Option Json := none
  vcs_tool : Option String := none
  vcs_repository : Option String := none
  dependencies : List (String × List DepEntry) := []
deriving Repr

/-- One yielded field of `parse_person` (`phpcomposer.py` lines 336-346):
`field and field.strip(chars)`. A missing key gives `None`; a falsy value is
passed through unchanged; a truthy string is stripped of `chars`; a truthy
non-string has no `strip` attribute and raises. -/
def personField (chars : List Char) (v : Option Json) : Except PyErr (Option Json) :=
  match v with
  | none => .ok none
  | some j =>
    if j.truthy then
      match j with
      | .str s => .ok (some (.str (stripChars chars s)))
      | _ => .error (.attributeError "strip")
    else .ok (some j)

/-- The name/role/email/homepage tuple `parse_person` yields for one person
object. -/
structure PersonTuple where
  name : Option Json
  role : Option Json
  email : Option Json
  url : Option Json
deriving Repr

/-- Step of `parse_person` for one element of the authors list: the element must be an
object (`person.get(...)` raises otherwise); `name` and `role` keep Python
`str.strip()` whitespace stripping, `email` is stripped of `"<> "`, the
`homepage` url of `"() "`. -/
def parse_one_person (person : Json) : Except PyErr PersonTuple :=
  match person with
  | .obj o => do
    let name ← personField pyWhitespace (pyGet o "name")
    let role ← personField pyWhitespace (pyGet o "role")
    let email ← personField ['<', '>', ' '] (pyGet o "email")
    let url ← personField ['(', ')', ' '] (pyGet o "homepage")
    .ok { name := name, role := role, email := email, url := url }
  | _ => .error (.attributeError "get")

/-- Model of `author_mapper` (`phpcomposer.py` lines 179-188) run against the
`models.py` of this tree. The source iterates the `parse_person` generator
(lines 309-348): for a non-list value the generator raises
`ValueError("Incorrect PHP composer persons: %(persons)r")` at its first
step, before the loop body ever runs; for an empty list the loop body never
runs and the package is returned unchanged; for a non-empty list the
generator first yields the parsed tuple of the FIRST person (so a mis-shaped
first person raises its own error here), after which the loop body evaluates
`package.parties.append(...)` — and `models.py`'s `Package` declares no
`parties` attribute, so the lookup raises `AttributeError` before the
`Party(...)` argument (with its rogue `role` keyword) is even evaluated. No
author is ever attached. -/
def author_mapper (authors_content : Json) (package : Package) : Except PyErr Package :=
  match authors_content with
  | .arr [] => .ok package
  | .arr (p0 :: _) => do
    let _ ← parse_one_person p0
    .error (.attributeError "parties")
  | other => .error (.valueError ("Incorrect PHP composer persons: " ++ pyRepr other))

/-- The list comprehension `[l.strip() for l in licenses if l and l.strip()]`
of `licensing_mapper`: falsy entries are skipped, truthy strings are stripped
and kept when non-blank, a truthy non-string has no `strip` and raises. -/
def stripTruthyStrings : List Json → Except PyErr (List String)
  | [] => .ok []
  | l :: rest =>
    if l.truthy then
      match l with
      | .str s => do
        let r ← stripTruthyStrings rest
        if pyStrip s == "" then .ok r else .ok (pyStrip s :: r)
      | _ => .error (.attributeError "strip")
    else stripTruthyStrings rest

/-- Model of `licensing_mapper` (`phpcomposer.py` lines 140-176): falsy values leave the
package unchanged; a list is stripped, filtered and joined with `" OR "`; a
non-list non-string is captured as `repr(licenses)`; a string passes through. -/
def licensing_mapper (licenses : Json) (package : Package) : Except PyErr Package :=
  if !licenses.truthy then .ok package
  else
    match licenses with
    | .arr ls => do
      let lics ← stripTruthyStrings ls
      .ok { package with asserted_license := some (String.intercalate " OR " lics) }
    | .str s => .ok { package with asserted_license := some s }
    | other => .ok { package with asserted_license := some (pyRepr other) }

/-- Model of `support_mapper` (`phpcomposer.py` lines 191-199):
`package.bug_tracking_url = support.get(\x27issues\x27) or None` and
`package.code_view_url = support.get(\x27source\x27) or None`; a non-object
has no `get` attribute and raises. -/
def support_mapper (support : Json) (package : Package) : Except PyErr Package :=
  match support with
  | .obj s =>
    .ok { package with
            bug_tracking_url := orNone (pyGet s "issues"),
            code_view_url := orNone (pyGet s "source") }
  | _ => .error (.attributeError "get")

/-- Model of `vendor_mapper` (`phpcomposer.py` lines 202-212) run against the
`models.py` of this tree: when the package name is a truthy string containing
`/` whose part before the first `/` is non-empty, the source evaluates
`package.parties.append(models.Party(name=vendor, role='vendor'))` —
and `models.py`'s `Package` has no `parties` attribute, so the lookup raises
`AttributeError` (before the `Party` call with its rogue `role` keyword is
evaluated) instead of attaching a vendor party. All other names fall through
and return the package unchanged. Python `"/" in name` is substring
containment for a string name, element/key membership for a decoded
list/dict (on which the later `name.partition` would raise), and a
`TypeError` for other values. -/
def vendor_mapper (package : Package) : Except PyErr Package :=
  match package.name with
  | none => .ok package
  | some nj =>
    if !nj.truthy then .ok package
    else
      match nj with
      | .str s =>
        if pyInStr "/" s then
          if pyPartitionSlashBefore s == "" then .ok package
          else .error (.attributeError "parties")
        else .ok package
      | .arr l =>
        if l.any (fun x => jsonEqStr (some x) "/") then .error (.attributeError "partition")
        else .ok package
      | .obj o =>
        if o.any (fun kv => kv.1 == "/") then .error (.attributeError "partition")
        else .ok package
      | _ => .error (.typeError "argument of type is not iterable")

/-- The VCS tool `repository_mapper` infers from a vcs-typed repository url
(`phpcomposer.py` lines 268-275), in source order: svn prefix or the
subversion host, hg prefix or the mercurial host, fossil prefix or the fossil
host, and git for everything else. -/
def vcsToolFor (repo_url : String) : String :=
  if pyStartsWith repo_url "svn" || pyInStr "subversion.apache.org" repo_url then "svn"
  else if pyStartsWith repo_url "hg" || pyInStr "mercurial.selenic.com" repo_url then "hg"
  else if pyStartsWith repo_url "fossil" || pyInStr "fossil-scm.org" repo_url then "fossil"
  else "git"

/-- The loop body of `repository_mapper` over the repositories list: entries
must be objects (`repo.get` raises otherwise); an entry whose `type` equals
`"vcs"` must carry a string url (`.startswith` raises on `None` and on non-string
shapes) and sets `vcs_tool` and `vcs_repository`; other entries are skipped.
`pru` abstracts `packagedcode.utils.parse_repo_url`, whose module is not part
of this tree. -/
def repoLoop (pru : String → Option String) : List Json → Package → Except PyErr Package
  | [], p => .ok p
  | r :: rest, p =>
    match r with
    | .obj ro =>
      if jsonEqStr (pyGet ro "type") "vcs" then
        match pyGet ro "url" with
        | some (.str u) =>
          repoLoop pru rest
            { p with vcs_tool := some (vcsToolFor u), vcs_repository := pru u }
        | _ => .error (.attributeError "startswith")
      else repoLoop pru rest p
    | _ => .error (.attributeError "get")

/-- Model of `repository_mapper` (`phpcomposer.py` lines 215-277): falsy values leave
the package unchanged; a string is normalized straight into `vcs_repository`;
a list is walked by `repoLoop`; any other shape falls through unchanged. -/
def repository_mapper (pru : String → Option String) (repos : Json) (package : Package) :
    Except PyErr Package :=
  if !repos.truthy then .ok package
  else
    match repos with
    | .str s => .ok { package with vcs_repository := pru s }
    | .arr l => repoLoop pru l package
    | _ => .ok package

/-- The `dep_types` table of `deps_mapper`. -/
def dep_types : List (String × String) :=
  [("dependencies", dep_runtime), ("devDependencies", dep_dev)]

/-- Model of `deps_mapper` (`phpcomposer.py` lines 280-302): resolves the dependency
group from `dep_types` (a missing key raises `KeyError`), builds one
`BasePackage`-shaped entry per manifest pair, and extends an existing group
list or installs a new one; a non-object has no `items` and raises. -/
def deps_mapper (deps : Json) (package : Package) (field_name : String) :
    Except PyErr Package :=
  match assocGet dep_types field_name with
  | none => .error (.keyError field_name)
  | some resolved_type =>
    match deps with
    | .obj pairs =>
      let dependencies := pairs.map (fun kv => DepEntry.mk "phpcomposer" kv.1 kv.2)
      if (assocGet package.dependencies resolved_type).isSome then
        .ok { package with
                dependencies := package.dependencies.map (fun g =>
                  if g.1 == resolved_type then (g.1, g.2 ++ dependencies) else g) }
      else
        .ok { package with
                dependencies := package.dependencies ++ [(resolved_type, dependencies)] }
    | _ => .error (.attributeError "items")

/-- Source `dependencies_mapper = partial(deps_mapper, field_name=\x27dependencies\x27)`. -/
def dependencies_mapper (deps : Json) (package : Package) : Except PyErr Package :=
  deps_mapper deps package "dependencies"

/-- Source `dev_dependencies_mapper = partial(deps_mapper, field_name=\x27devDependencies\x27)`. -/
def dev_dependencies_mapper (deps : Json) (package : Package) : Except PyErr Package :=
  deps_mapper deps package "devDependencies"

/-- Normalization `build_package` applies to a manifest value before using it
(`phpcomposer.py` lines 120-133): a string value is stripped. -/
def stripIfStr : Json → Json
  | .str s => .str (pyStrip s)
  | j => j

/-- One step of the `plain_fields` loop of `build_package`: when the manifest
value is truthy (after stripping a string value) the target attribute is set
to it, otherwise the package is left alone. -/
def applyPlain (m : List (String × Json)) (source : String)
    (set : Package → Json → Package) (p : Package) : Package :=
  match pyGet m source with
  | none => p
  | some v =>
    if v.truthy then
      let v2 := stripIfStr v
      if v2.truthy then set p v2 else p
    else p

/-- The `plain_fields` table of `build_package` (`phpcomposer.py` lines
90-96), applied in source order. -/
def plainFields (m : List (String × Json)) (p : Package) : Package :=
  applyPlain m "homepage" (fun p v => { p with homepage_url := some v })
    (applyPlain m "version" (fun p v => { p with version := some v })
      (applyPlain m "keywords" (fun p v => { p with keywords := some v })
        (applyPlain m "description" (fun p v => { p with summary := some v })
          (applyPlain m "name" (fun p v => { p with name := some v }) p))))

/-- The value a plain-field step actually stores: the manifest value when
truthy, stripped when a string and still truthy, and nothing otherwise. -/
def plainValue (m : List (String × Json)) (src : String) : Option Json :=
  match pyGet m src with
  | none => none
  | some v =>
    if v.truthy then
      let v2 := stripIfStr v
      if v2.truthy then some v2 else none
    else none

/-- Keep the old attribute value unless the plain-field step stored a new one. -/
def keepOr (old : Option Json) (v : Option Json) : Option Json :=
  match v with
  | some x => some x
  | none => old

/-- One step of the `field_mappers` loop of `build_package`: when the manifest
value is truthy (after stripping a string value) the mapper runs on it,
otherwise the package passes through untouched. -/
def applyMapper (m : List (String × Json)) (source : String)
    (func : Json → Package → Except PyErr Package) (p : Package) :
    Except PyErr Package :=
  match pyGet m source with
  | none => .ok p
  | some v =>
    if v.truthy then
      let v2 := stripIfStr v
      if v2.truthy then func v2 p else .ok p
    else .ok p

/-- Model of `build_package` (`phpcomposer.py` lines 82-137): a fresh
`PHPComposerPackage` gets the plain fields, then the structured field mappers
in table order (`authors`, `license`, `require`, `require-dev`,
`repositories`, `support`), then the vendor derivation. `pru` abstracts
`packagedcode.utils.parse_repo_url`. -/
def build_package (pru : String → Option String) (package_data : List (String × Json)) :
    Except PyErr Package := do
  let package ← applyMapper package_data "authors" author_mapper
    (plainFields package_data {})
  let package ← applyMapper package_data "license" licensing_mapper package
  let package ← applyMapper package_data "require" dependencies_mapper package
  let package ← applyMapper package_data "require-dev" dev_dependencies_mapper package
  let package ← applyMapper package_data "repositories" (repository_mapper pru) package
  let package ← applyMapper package_data "support" support_mapper package
  vendor_mapper package

/-- A trivial stand-in for `parse_repo_url` usable at concrete inputs: the
identity normalization. -/
def pruId : String → Option String := fun s => some s

/-- Lexicographic three-way comparison of two character sequences, the
ordering Python 2 `cmp` uses on unicode strings. -/
def charListCmp : List Char → List Char → Int
  | [], [] => 0
  | [], _ :: _ => -1
  | _ :: _, [] => 1
  | a :: as, b :: bs => if a < b then -1 else if b < a then 1 else charListCmp as bs

/-- Python 2 `cmp` on two version attributes (each `None` or a decoded JSON
value). `None` sorts below everything; strings compare lexicographically. The
remaining shape combinations are never produced by the claims below and are
collapsed to 0. -/
def pyCmp (x y : Option Json) : Int :=
  match x, y with
  | none, none => 0
  | none, some _ => -1
  | some _, none => 1
  | some (.str a), some (.str b) => charListCmp a.data b.data
  | some _, some _ => 0

/-- Model of `Package.compare_version` (`models.py` lines 565-594). The
source computes
`x = component_level and self.component_version() or self.version` and
`y = component_level and other.component_version() or self.version`:
with `component_level=False` both operands short-circuit to `self.version`
(the `other` argument is never read), and with `component_level=True` the
call `self.component_version()` applies the value of a property — a string,
which is not callable — and raises `TypeError`. -/
def compare_version (self other : Package) (component_level : Bool) : Except PyErr Int :=
  if component_level then
    .error (.typeError "object is not callable")
  else
    let x := self.version
    let y := self.version
    .ok (pyCmp x y)

/-- Python attribute lookup of `sortable` on a version attribute (`None` or a
JSON-decoded value). None of `NoneType`, `unicode`, `list`, `OrderedDict`,
`bool`, `int` defines a `sortable` attribute, so the lookup raises
`AttributeError` for every possible shape. -/
def getattrSortable (v : Option Json) : Except PyErr (Json → Json) :=
  match v with
  | none => .error (.attributeError "sortable")
  | some .null => .error (.attributeError "sortable")
  | some (.bool _) => .error (.attributeError "sortable")
  | some (.num _) => .error (.attributeError "sortable")
  | some (.str _) => .error (.attributeError "sortable")
  | some (.arr _) => .error (.attributeError "sortable")
  | some (.obj _) => .error (.attributeError "sortable")

/-- Model of `Package.sort_key` (`models.py` lines 596-600): the source
returns `(self.type, self.name, self.version.sortable(self.version))`, so it
first looks up a `sortable` attribute on the version value. -/
def sort_key (p : Package) : Except PyErr (String × Option Json × Json) := do
  let f ← getattrSortable p.version
  .ok (p.ptype, p.name, f (p.version.getD .null))

/-- The current entry list of dependency group `g` of a package, the view
`package.dependencies[g]` with `[]` for a missing group. -/
def groupOf (p : Package) (g : String) : List DepEntry :=
  (assocGet p.dependencies g).getD []

/-- The entries the trimmed non-empty strings of a license list contribute, in
order: a string entry is stripped and kept when non-blank, every falsy entry is
skipped. Defined only over lists whose truthy entries are strings, which is
the shape `licensing_mapper` accepts without raising. -/
def trimmedLicenseEntries (l : List Json) : List String :=
  l.filterMap (fun j =>
    match j with
    | .str s => if pyStrip s == "" then none else some (pyStrip s)
    | _ => none)

/-- Decide whether a decoded value is a JSON array. -/
def Json.isArr : Json → Bool
  | .arr _ => true
  | _ => false

/-- Shape check for one repositories entry that the vcs branch does not apply
to: an object whose declared `type` is not `"vcs"`. -/
def nonVcsObj (j : Json) : Bool :=
  match j with
  | .obj o => !(jsonEqStr (pyGet o "type") "vcs")
  | _ => false

namespace SchematicsDefaults

/-!
Object-identity model of the container defaults declared in `models.py`.

`BaseListType.__init__` passes `default=[]` (lines 99-105) and the
`dependencies` field is `DictType(..., default={})` (line 469). In Python the
literal `[]`/`{}` is evaluated once, when the class body runs at module load,
producing one container object per field descriptor. The schematics field
`default` property hands back that stored object itself (it only calls it when
it is callable, which a list/dict is not), so every `Package()` instance whose
field was not explicitly given a value holds a reference to the same
module-level container. This namespace models the heap of those containers:
`Container` is a list or dict object, a `Ref` is an object identity, and a
constructed package stores references, not copies.
-/

/-- A mutable container object: a list of abstract serialized items, or a dict
from dependency group to items. -/
inductive Container where
  | listC (items : List String)
  | dictC (entries : List (String × List String))
deriving Repr, DecidableEq

/-- The heap of allocated container objects, addressed by allocation index. -/
structure Heap where
  objs : List Container
deriving Repr, DecidableEq

/-- Allocate a fresh container, returning its reference. -/
def Heap.alloc (h : Heap) (c : Container) : Heap × Nat :=
  ({ objs := h.objs ++ [c] }, h.objs.length)

/-- Dereference. -/
def Heap.read (h : Heap) (r : Nat) : Option Container :=
  h.objs.get? r

/-- In-place mutation of the object behind a reference. -/
def Heap.write (h : Heap) (r : Nat) (c : Container) : Heap :=
  { objs := h.objs.set r c }

/-- The list-typed `Package` fields of `models.py` that are declared with
`BaseListType` (hence `default=[]`): the seven party lists, `keywords`,
`download_urls`, `support_contacts`, `copyrights`, `license_texts` and
`related_packages`. -/
def listFieldNames : List String :=
  ["authors", "maintainers", "contributors", "owners", "packagers",
   "distributors", "vendors", "keywords", "download_urls", "support_contacts",
   "copyrights", "license_texts", "related_packages"]

/-- The default-container references held by the field descriptors after the
class body of `Package` has run. -/
structure FieldDefaults where
  listDefaults : List (String × Nat)
  dependenciesDefault : Nat
deriving Repr, DecidableEq

/-- Module load: the class body evaluates one `[]` per `BaseListType` field and
one `{}` for `dependencies`, each allocated exactly once. -/
def moduleLoad : Heap × FieldDefaults :=
  let step := fun (acc : Heap × List (String × Nat)) (n : String) =>
    let ar := acc.1.alloc (.listC [])
    (ar.1, acc.2 ++ [(n, ar.2)])
  let hl := listFieldNames.foldl step ({ objs := [] }, [])
  let hd := hl.1.alloc (.dictC [])
  (hd.1, { listDefaults := hl.2, dependenciesDefault := hd.2 })

/-- A constructed `Package()` instance as schematics stores it: for each field
given no explicit value, the instance data holds the field default — the very
container object the descriptor stores, not a copy. Construction allocates
nothing. -/
structure PackageInst where
  listRefs : List (String × Nat)
  dependenciesRef : Nat
deriving Repr, DecidableEq

/-- Instance construction with no explicit field values. -/
def constructPackage (d : FieldDefaults) : PackageInst :=
  { listRefs := d.listDefaults, dependenciesRef := d.dependenciesDefault }

/-- Read the current contents of a list field of an instance. -/
def readListField (h : Heap) (p : PackageInst) (f : String) : Option (List String) :=
  match assocGet p.listRefs f with
  | some r =>
    match h.read r with
    | some (.listC xs) => some xs
    | _ => none
  | none => none

/-- Append to a list field of an instance, e.g.
`package.authors.append(party)`: mutates the referenced object. -/
def appendListField (h : Heap) (p : PackageInst) (f : String) (x : String) : Heap :=
  match assocGet p.listRefs f with
  | some r =>
    match h.read r with
    | some (.listC xs) => h.write r (.listC (xs ++ [x]))
    | _ => h
  | none => h

/-- Read the dependencies dict of an instance. -/
def readDependencies (h : Heap) (p : PackageInst) : Option (List (String × List String)) :=
  match h.read p.dependenciesRef with
  | some (.dictC es) => some es
  | _ => none

/-- Install a dependency group on an instance, e.g.
`package.dependencies[resolved_type] = dependencies` in `deps_mapper`:
mutates the referenced dict object. -/
def setDependencyGroup (h : Heap) (p : PackageInst) (g : String) (items : List String) : Heap :=
  match h.read p.dependenciesRef with
  | some (.dictC es) =>
    if (assocGet es g).isSome then
      h.write p.dependenciesRef
        (.dictC (es.map (fun e => if e.1 == g then (e.1, items) else e)))
    else
      h.write p.dependenciesRef (.dictC (es ++ [(g, items)]))
  | _ => h

/-- The heap as it stands at module load. -/
def demoHeap0 : Heap := moduleLoad.1

/-- The field defaults produced at module load. -/
def demoDefaults : FieldDefaults := moduleLoad.2

/-- A first `Package()` instance, constructed with no explicit values. -/
def pkgA : PackageInst := constructPackage demoDefaults

/-- A second, separately constructed `Package()` instance. -/
def pkgB : PackageInst := constructPackage demoDefaults

/-- The heap after `pkgA.authors.append(...)` ran once. -/
def heapAfterAppend : Heap := appendListField demoHeap0 pkgA "authors" "party-added-via-A"

/-- The heap after `deps_mapper` installed a runtime group through `pkgA`. -/
def heapAfterDeps : Heap := setDependencyGroup demoHeap0 pkgA "runtime" ["php >=7.0"]

end SchematicsDefaults

/-! ### General lemmas about the embedding -/

theorem bind_ok_elim {ε α β : Type} {e : Except ε α} {f : α → Except ε β} {b : β}
    (h : e >>= f = .ok b) : ∃ a, e = .ok a ∧ f a = .ok b := by
  cases e with
  | ok a => exact ⟨a, rfl, h⟩
  | error e2 => simp [Bind.bind, Except.bind] at h

theorem assocGet_append {α : Type} (l1 l2 : List (String × α)) (k : String) :
    assocGet (l1 ++ l2) k =
      match assocGet l1 k with
      | some x => some x
      | none => assocGet l2 k := by
  induction l1 with
  | nil => rfl
  | cons kv rest ih =>
    cases h : (kv.1 == k) <;> simp [assocGet, h, ih]

theorem assocGet_map_extend (l : List (String × List DepEntry)) (rt k : String)
    (new : List DepEntry) :
    assocGet (l.map (fun g => if g.1 == rt then (g.1, g.2 ++ new) else g)) k =
      (assocGet l k).map (fun old => if k = rt then old ++ new else old) := by
  induction l with
  | nil => rfl
  | cons kv rest ih =>
    simp only [beq_iff_eq] at ih
    by_cases hr : kv.1 = rt <;> by_cases hk : kv.1 = k
    · have hkr : k = rt := by rw [← hk, hr]
      simp [assocGet, hr, hk, hkr]
    · have hrk : ¬rt = k := by rw [← hr]; exact hk
      simp [assocGet, hr, hk, hrk, ih]
    · have hkr : ¬k = rt := by rw [← hk]; exact hr
      simp [assocGet, hr, hk, hkr]
    · simp [assocGet, hr, hk, ih]

theorem truthy_stripIfStr {v : Json} (h : (stripIfStr v).truthy = true) :
    v.truthy = true := by
  cases v <;> simp_all [stripIfStr, Json.truthy]
  intro hs
  subst hs
  exact h rfl

theorem applyPlain_pres {A : Type} {m : List (String × Json)} {src : String}
    {set : Package → Json → Package} (F : Package → A)
    (hset : ∀ p v, F (set p v) = F p) (p : Package) :
    F (applyPlain m src set p) = F p := by
  unfold applyPlain
  cases pyGet m src with
  | none => rfl
  | some v =>
    dsimp
    split
    · split
      · exact hset p _
      · rfl
    · rfl

theorem applyMapper_pres (R : Package → Package → Prop) {m : List (String × Json)}
    {src : String} {f : Json → Package → Except PyErr Package}
    (hrefl : ∀ p, R p p) (hf : ∀ v p q, f v p = .ok q → R p q) :
    ∀ {p q}, applyMapper m src f p = .ok q → R p q := by
  intro p q h
  unfold applyMapper at h
  cases hg : pyGet m src with
  | none =>
    rw [hg] at h
    injection h with h
    subst h
    exact hrefl p
  | some v =>
    rw [hg] at h
    dsimp at h
    split at h
    · split at h
      · exact hf _ _ _ h
      · injection h with h; subst h; exact hrefl p
    · injection h with h; subst h; exact hrefl p

theorem applyMapper_hit {m : List (String × Json)} {src : String}
    {f : Json → Package → Except PyErr Package} {v : Json} (p : Package)
    (hg : pyGet m src = some v) (ht : (stripIfStr v).truthy = true) :
    applyMapper m src f p = f (stripIfStr v) p := by
  unfold applyMapper
  rw [hg]
  dsimp
  rw [truthy_stripIfStr ht]
  dsimp
  rw [ht]
  dsimp

theorem applyPlain_eq (m : List (String × Json)) (src : String)
    (set : Package → Json → Package) (p : Package) :
    applyPlain m src set p =
      match plainValue m src with
      | some v => set p v
      | none => p := by
  unfold applyPlain plainValue
  cases pyGet m src with
  | none => rfl
  | some v =>
    dsimp
    split
    · split <;> rfl
    · rfl

theorem plainFields_pres {A : Type} (F : Package → A)
    (h1 : ∀ p v, F { p with name := some v } = F p)
    (h2 : ∀ p v, F { p with summary := some v } = F p)
    (h3 : ∀ p v, F { p with keywords := some v } = F p)
    (h4 : ∀ p v, F { p with version := some v } = F p)
    (h5 : ∀ p v, F { p with homepage_url := some v } = F p)
    (m : List (String × Json)) (p : Package) : F (plainFields m p) = F p := by
  unfold plainFields
  rw [applyPlain_pres F h5, applyPlain_pres F h4, applyPlain_pres F h3,
      applyPlain_pres F h2, applyPlain_pres F h1]

theorem plainFields_frame (m : List (String × Json)) (p : Package) :
    (plainFields m p).ptype = p.ptype ∧
    (plainFields m p).asserted_license = p.asserted_license ∧
    (plainFields m p).dependencies = p.dependencies ∧
    (plainFields m p).vcs_tool = p.vcs_tool ∧
    (plainFields m p).vcs_repository = p.vcs_repository ∧
    (plainFields m p).bug_tracking_url = p.bug_tracking_url ∧
    (plainFields m p).code_view_url = p.code_view_url ∧
    (plainFields m p).primary_language = p.primary_language :=
  ⟨plainFields_pres (fun q => q.ptype) (fun _ _ => rfl) (fun _ _ => rfl) (fun _ _ => rfl)
      (fun _ _ => rfl) (fun _ _ => rfl) m p,
   plainFields_pres (fun q => q.asserted_license) (fun _ _ => rfl) (fun _ _ => rfl)
      (fun _ _ => rfl) (fun _ _ => rfl) (fun _ _ => rfl) m p,
   plainFields_pres (fun q => q.dependencies) (fun _ _ => rfl) (fun _ _ => rfl)
      (fun _ _ => rfl) (fun _ _ => rfl) (fun _ _ => rfl) m p,
   plainFields_pres (fun q => q.vcs_tool) (fun _ _ => rfl) (fun _ _ => rfl) (fun _ _ => rfl)
      (fun _ _ => rfl) (fun _ _ => rfl) m p,
   plainFields_pres (fun q => q.vcs_repository) (fun _ _ => rfl) (fun _ _ => rfl)
      (fun _ _ => rfl) (fun _ _ => rfl) (fun _ _ => rfl) m p,
   plainFields_pres (fun q => q.bug_tracking_url) (fun _ _ => rfl) (fun _ _ => rfl)
      (fun _ _ => rfl) (fun _ _ => rfl) (fun _ _ => rfl) m p,
   plainFields_pres (fun q => q.code_view_url) (fun _ _ => rfl) (fun _ _ => rfl)
      (fun _ _ => rfl) (fun _ _ => rfl) (fun _ _ => rfl) m p,
   plainFields_pres (fun q => q.primary_language) (fun _ _ => rfl) (fun _ _ => rfl)
      (fun _ _ => rfl) (fun _ _ => rfl) (fun _ _ => rfl) m p⟩

theorem applyPlain_name_pres (m : List (String × Json)) (src : String)
    (set : Package → Json → Package) (hs : ∀ p v, (set p v).name = p.name)
    (p : Package) : (applyPlain m src set p).name = p.name :=
  applyPlain_pres (fun q => q.name) hs p

theorem plainFields_name (m : List (String × Json)) (p : Package) :
    (plainFields m p).name = keepOr p.name (plainValue m "name") := by
  unfold plainFields
  rw [applyPlain_name_pres m "homepage" (fun p v => { p with homepage_url := some v })
        (fun _ _ => rfl),
      applyPlain_name_pres m "version" (fun p v => { p with version := some v })
        (fun _ _ => rfl),
      applyPlain_name_pres m "keywords" (fun p v => { p with keywords := some v })
        (fun _ _ => rfl),
      applyPlain_name_pres m "description" (fun p v => { p with summary := some v })
        (fun _ _ => rfl),
      applyPlain_eq]
  cases plainValue m "name" <;> rfl

theorem author_mapper_ok_eq {v : Json} {p q : Package}
    (h : author_mapper v p = .ok q) : q = p := by
  unfold author_mapper at h
  split at h
  · injection h with h
    exact h.symm
  · obtain ⟨t, _, h2⟩ := bind_ok_elim h
    simp at h2
  · simp at h

theorem author_mapper_frame {v : Json} {p q : Package}
    (h : author_mapper v p = .ok q) :
    q.ptype = p.ptype ∧ q.name = p.name ∧ q.asserted_license = p.asserted_license ∧
    q.dependencies = p.dependencies ∧ q.vcs_tool = p.vcs_tool ∧
    q.vcs_repository = p.vcs_repository := by
  rw [author_mapper_ok_eq h]
  exact ⟨rfl, rfl, rfl, rfl, rfl, rfl⟩

theorem licensing_mapper_frame {v : Json} {p q : Package}
    (h : licensing_mapper v p = .ok q) :
    q.ptype = p.ptype ∧ q.name = p.name ∧ q.dependencies = p.dependencies ∧
    q.vcs_tool = p.vcs_tool ∧ q.vcs_repository = p.vcs_repository := by
  unfold licensing_mapper at h
  split at h
  · injection h with h
    subst h
    exact ⟨rfl, rfl, rfl, rfl, rfl⟩
  · split at h
    · obtain ⟨lics, _, h2⟩ := bind_ok_elim h
      injection h2 with h2
      subst h2
      exact ⟨rfl, rfl, rfl, rfl, rfl⟩
    · injection h with h
      subst h
      exact ⟨rfl, rfl, rfl, rfl, rfl⟩
    · injection h with h
      subst h
      exact ⟨rfl, rfl, rfl, rfl, rfl⟩

theorem deps_mapper_frame {v : Json} {p q : Package} {fn : String}
    (h : deps_mapper v p fn = .ok q) :
    q.ptype = p.ptype ∧ q.name = p.name ∧ q.asserted_license = p.asserted_license ∧
    q.vcs_tool = p.vcs_tool ∧ q.vcs_repository = p.vcs_repository := by
  unfold deps_mapper at h
  split at h
  · simp at h
  · split at h
    · split at h <;> (injection h with h; subst h; exact ⟨rfl, rfl, rfl, rfl, rfl⟩)
    · simp at h

theorem repoLoop_frame {pru : String → Option String} :
    ∀ (l : List Json) (p q : Package), repoLoop pru l p = .ok q →
      q.ptype = p.ptype ∧ q.name = p.name ∧ q.asserted_license = p.asserted_license ∧
      q.dependencies = p.dependencies := by
  intro l
  induction l with
  | nil =>
    intro p q h
    injection h with h
    subst h
    exact ⟨rfl, rfl, rfl, rfl⟩
  | cons r rest ih =>
    intro p q h
    unfold repoLoop at h
    split at h
    · split at h
      · split at h
        · have hrec := ih _ _ h
          exact hrec
        · simp at h
      · exact ih _ _ h
    · simp at h

theorem repository_mapper_frame {pru : String → Option String} {v : Json}
    {p q : Package} (h : repository_mapper pru v p = .ok q) :
    q.ptype = p.ptype ∧ q.name = p.name ∧ q.asserted_license = p.asserted_license ∧
    q.dependencies = p.dependencies := by
  unfold repository_mapper at h
  split at h
  · injection h with h
    subst h
    exact ⟨rfl, rfl, rfl, rfl⟩
  · split at h
    · injection h with h
      subst h
      exact ⟨rfl, rfl, rfl, rfl⟩
    · exact repoLoop_frame _ _ _ h
    · injection h with h
      subst h
      exact ⟨rfl, rfl, rfl, rfl⟩

theorem support_mapper_frame {v : Json} {p q : Package}
    (h : support_mapper v p = .ok q) :
    q.ptype = p.ptype ∧ q.name = p.name ∧ q.asserted_license = p.asserted_license ∧
    q.dependencies = p.dependencies ∧ q.vcs_tool = p.vcs_tool ∧
    q.vcs_repository = p.vcs_repository := by
  unfold support_mapper at h
  split at h
  · injection h with h
    subst h
    exact ⟨rfl, rfl, rfl, rfl, rfl, rfl⟩
  · simp at h

theorem vendor_mapper_ok_eq {p q : Package} (h : vendor_mapper p = .ok q) :
    q = p := by
  unfold vendor_mapper at h
  split at h
  · injection h with h
    exact h.symm
  · split at h
    · injection h with h
      exact h.symm
    · split at h
      · split at h
        · split at h
          · injection h with h
            exact h.symm
          · simp at h
        · injection h with h
          exact h.symm
      · split at h
        · simp at h
        · injection h with h
          exact h.symm
      · split at h
        · simp at h
        · injection h with h
          exact h.symm
      · simp at h

theorem vendor_mapper_frame {p q : Package} (h : vendor_mapper p = .ok q) :
    q.ptype = p.ptype ∧ q.name = p.name ∧ q.asserted_license = p.asserted_license ∧
    q.dependencies = p.dependencies ∧ q.vcs_tool = p.vcs_tool ∧
    q.vcs_repository = p.vcs_repository := by
  rw [vendor_mapper_ok_eq h]
  exact ⟨rfl, rfl, rfl, rfl, rfl, rfl⟩

theorem build_package_ok_chain {pru : String → Option String}
    {m : List (String × Json)} {q : Package} (h : build_package pru m = .ok q) :
    ∃ p2 p3 p4 p5 p6 p7,
      applyMapper m "authors" author_mapper (plainFields m {}) = .ok p2 ∧
      applyMapper m "license" licensing_mapper p2 = .ok p3 ∧
      applyMapper m "require" dependencies_mapper p3 = .ok p4 ∧
      applyMapper m "require-dev" dev_dependencies_mapper p4 = .ok p5 ∧
      applyMapper m "repositories" (repository_mapper pru) p5 = .ok p6 ∧
      applyMapper m "support" support_mapper p6 = .ok p7 ∧
      vendor_mapper p7 = .ok q := by
  unfold build_package at h
  obtain ⟨p2, h2, h⟩ := bind_ok_elim h
  obtain ⟨p3, h3, h⟩ := bind_ok_elim h
  obtain ⟨p4, h4, h⟩ := bind_ok_elim h
  obtain ⟨p5, h5, h⟩ := bind_ok_elim h
  obtain ⟨p6, h6, h⟩ := bind_ok_elim h
  obtain ⟨p7, h7, h⟩ := bind_ok_elim h
  exact ⟨p2, p3, p4, p5, p6, p7, h2, h3, h4, h5, h6, h7, h⟩

theorem pyStrip_ne_of_ne {s : String} (h : pyStrip s ≠ "") : s ≠ "" := by
  intro hs
  subst hs
  exact h rfl

theorem stripIfStr_non_str {v : Json} (h : ∀ s, v ≠ .str s) : stripIfStr v = v := by
  cases v <;> first
    | rfl
    | exact absurd rfl (h _)

theorem licensing_mapper_str {s : String} (hs : s ≠ "") (p : Package) :
    licensing_mapper (.str s) p = .ok { p with asserted_license := some s } := by
  unfold licensing_mapper
  simp [Json.truthy, hs]

theorem licensing_mapper_arr {l : List Json} {lics : List String}
    (hl : l ≠ []) (hstrip : stripTruthyStrings l = .ok lics) (p : Package) :
    licensing_mapper (.arr l) p =
      .ok { p with asserted_license := some (String.intercalate " OR " lics) } := by
  unfold licensing_mapper
  simp [Json.truthy, List.isEmpty_iff, hl, hstrip, Bind.bind, Except.bind]

theorem licensing_mapper_other {v : Json} (ht : v.truthy = true)
    (harr : v.isArr = false) (hstr : ∀ s, v ≠ .str s) (p : Package) :
    licensing_mapper v p = .ok { p with asserted_license := some (pyRepr v) } := by
  unfold licensing_mapper
  cases v <;> simp_all [Json.isArr]

theorem licensing_mapper_sets {v : Json} {p q : Package} (ht : v.truthy = true)
    (h : licensing_mapper v p = .ok q) : ∃ s, q.asserted_license = some s := by
  unfold licensing_mapper at h
  rw [ht] at h
  dsimp at h
  split at h
  · obtain ⟨lics, _, h2⟩ := bind_ok_elim h
    injection h2 with h2
    subst h2
    exact ⟨_, rfl⟩
  · injection h with h2
    subst h2
    exact ⟨_, rfl⟩
  · injection h with h2
    subst h2
    exact ⟨_, rfl⟩

theorem trimmedLicenseEntries_cons_falsy {j : Json} {rest : List Json}
    (hj : j.truthy = false) :
    trimmedLicenseEntries (j :: rest) = trimmedLicenseEntries rest := by
  cases j with
  | str s =>
    have hs : s = "" := by simpa [Json.truthy] using hj
    subst hs
    have h0 : pyStrip "" = "" := rfl
    simp [trimmedLicenseEntries, List.filterMap_cons, h0]
  | null => simp [trimmedLicenseEntries, List.filterMap_cons]
  | bool b => simp [trimmedLicenseEntries, List.filterMap_cons]
  | num n => simp [trimmedLicenseEntries, List.filterMap_cons]
  | arr l => simp [trimmedLicenseEntries, List.filterMap_cons]
  | obj o => simp [trimmedLicenseEntries, List.filterMap_cons]

theorem stripTruthyStrings_eq {l : List Json}
    (h : ∀ j ∈ l, j.truthy = true → ∃ s, j = .str s) :
    stripTruthyStrings l = .ok (trimmedLicenseEntries l) := by
  induction l with
  | nil => rfl
  | cons j rest ih =>
    have hrest := ih (fun x hx => h x (List.mem_cons_of_mem _ hx))
    unfold stripTruthyStrings
    cases hj : j.truthy with
    | false =>
      rw [trimmedLicenseEntries_cons_falsy hj]
      dsimp
      exact hrest
    | true =>
      obtain ⟨s, hs⟩ := h j (List.mem_cons_self _ _) hj
      subst hs
      dsimp
      rw [hrest]
      dsimp only [Bind.bind, Except.bind]
      by_cases hps : pyStrip s = ""
      · have hb : (pyStrip s == "") = true := by simp [hps]
        rw [hb]
        dsimp
        simp [trimmedLicenseEntries, List.filterMap_cons, hps]
      · have hb : (pyStrip s == "") = false := by simp [hps]
        rw [hb]
        dsimp
        simp [trimmedLicenseEntries, List.filterMap_cons, hps]

theorem applyMapper_pres_field {A : Type} (F : Package → A) {m : List (String × Json)}
    {src : String} {f : Json → Package → Except PyErr Package}
    (hf : ∀ v p q, f v p = .ok q → F q = F p) {p q : Package}
    (h : applyMapper m src f p = .ok q) : F q = F p :=
  applyMapper_pres (fun a b => F b = F a) (fun _ => rfl) hf h

theorem deps_mapper_obj_ok (pkg : Package) (pairs : List (String × Json))
    {fn rt : String} (hfn : assocGet dep_types fn = some rt) :
    ∃ q, deps_mapper (.obj pairs) pkg fn = .ok q := by
  unfold deps_mapper
  rw [hfn]
  dsimp
  split
  · exact ⟨_, rfl⟩
  · exact ⟨_, rfl⟩

theorem deps_mapper_groupOf {pkg q : Package} {pairs : List (String × Json)}
    {fn rt : String} (hfn : assocGet dep_types fn = some rt)
    (h : deps_mapper (.obj pairs) pkg fn = .ok q) (g : String) :
    groupOf q g =
      if g = rt
      then groupOf pkg g ++ pairs.map (fun kv => DepEntry.mk "phpcomposer" kv.1 kv.2)
      else groupOf pkg g := by
  unfold deps_mapper at h
  rw [hfn] at h
  dsimp at h
  split at h
  case isTrue hS =>
    injection h with h
    subst h
    dsimp [groupOf]
    rw [assocGet_map_extend]
    by_cases hgr : g = rt
    · subst hgr
      obtain ⟨old, hold⟩ := Option.isSome_iff_exists.mp hS
      simp [hold]
    · simp [hgr]
  case isFalse hS =>
    injection h with h
    subst h
    dsimp [groupOf]
    rw [assocGet_append]
    by_cases hgr : g = rt
    · subst hgr
      have hnone : assocGet pkg.dependencies g = none := by
        cases hA : assocGet pkg.dependencies g with
        | none => rfl
        | some x => exact absurd (by simp [hA]) hS
      rw [hnone]
      simp [assocGet]
    · cases hA : assocGet pkg.dependencies g with
      | none =>
        have hrg : ¬(rt = g) := fun hh => hgr hh.symm
        simp [assocGet, hrg, hgr]
      | some x => simp [hA, hgr]

theorem repoLoop_all_nonvcs {pru : String → Option String} :
    ∀ (entries : List Json) (p : Package), entries.all nonVcsObj = true →
      repoLoop pru entries p = .ok p := by
  intro entries
  induction entries with
  | nil => intro p _; rfl
  | cons r rest ih =>
    intro p hall
    rw [List.all_cons, Bool.and_eq_true] at hall
    unfold repoLoop
    cases r with
    | obj ro =>
      have hnv : jsonEqStr (pyGet ro "type") "vcs" = false := by
        have := hall.1
        unfold nonVcsObj at this
        simpa using this
      dsimp
      rw [hnv]
      dsimp
      exact ih p hall.2
    | null => simp [nonVcsObj] at hall
    | bool b => simp [nonVcsObj] at hall
    | num n => simp [nonVcsObj] at hall
    | str s2 => simp [nonVcsObj] at hall
    | arr l2 => simp [nonVcsObj] at hall

theorem plainValue_str {m : List (String × Json)} {src : String} {s : String}
    (hg : pyGet m src = some (.str s)) (hs : pyStrip s ≠ "") :
    plainValue m src = some (.str (pyStrip s)) := by
  unfold plainValue
  rw [hg]
  have h1 : (Json.str s).truthy = true := by
    simp [Json.truthy]
    exact pyStrip_ne_of_ne hs
  have h2 : (stripIfStr (Json.str s)).truthy = true := by
    simp [stripIfStr, Json.truthy]
    exact hs
  dsimp
  rw [h1]
  dsimp [stripIfStr]
  dsimp [stripIfStr] at h2
  rw [h2]
  rfl

/-! ### Claim theorems -/

/-- Claim C3: the claim states that with `component_level=false`,
`p.compare_version(q)` compares the version of `p` with the version of `q`
(negative iff smaller, zero iff equal, positive iff larger). The code instead
evaluates `y = component_level and other.component_version() or self.version`,
so with `component_level=false` BOTH operands are `self.version` and the
result is `cmp(self.version, self.version)`: the result never depends on the
other package at all, and for two packages with versions `"1"` and `"2"` —
for which `cmp` of the two versions is `-1` and the method's own docstring
demands `-1` — the code still answers `0` (equal). -/
theorem C3_compare_version_compares_self_with_self :
    (∀ p q r : Package, compare_version p q false = compare_version p r false) ∧
    (∀ p q : Package, compare_version p q false = .ok (pyCmp p.version p.version)) ∧
    compare_version { version := some (.str "1") } { version := some (.str "2") } false =
      .ok 0 ∧
    pyCmp (some (.str "1")) (some (.str "2")) = -1 :=
  ⟨fun _ _ _ => rfl, fun _ _ => rfl, rfl, by decide⟩

/-- Claim C8: the claim states that for every `Package` with `type`, `name`
and `version` set, `sort_key()` succeeds and returns the triple
`(type, name, sortable_version)`. The source line 600 evaluates
`self.version.sortable(self.version)` — but no version value (a string, or
`None`) has a `sortable` attribute, so `sort_key` always raises
`AttributeError` and never returns anything, for every package, in
particular for the fully-populated one evaluated here. -/
theorem C8_sort_key_always_raises :
    (∀ p : Package, sort_key p = .error (.attributeError "sortable")) ∧
    sort_key { ptype := "phpcomposer", name := some (.str "acme/widget"),
               version := some (.str "1.0") } = .error (.attributeError "sortable") := by
  constructor
  · intro p
    unfold sort_key
    cases hv : p.version with
    | none => rfl
    | some j => cases j <;> rfl
  · rfl

/-- Claim C7: the claim states `vcs_tool` always stays inside the declared
`VCS_CHOICES = {git, svn, hg, bzr, cvs}`, in particular across the Composer
parser. But `repository_mapper` writes `"fossil"` for a vcs repository whose
url starts with `fossil` (or names the fossil host), and `"fossil"` is not in
`VCS_CHOICES`: parsing such a manifest yields a package violating the model's
own declared choices. -/
theorem C7_fossil_escapes_vcs_choices :
    (build_package pruId
        [("repositories", Json.arr
          [Json.obj [("type", Json.str "vcs"),
                     ("url", Json.str "fossil://example.org/repo")]])]).toOption.map
      Package.vcs_tool = some (some "fossil") ∧
    VCS_CHOICES.contains "fossil" = false :=
  ⟨rfl, rfl⟩

/-- Claim C10: applying `support_mapper` to a support object always assigns
both `bug_tracking_url` and `code_view_url`: the former becomes the object's
`issues` value and the latter its `source` value, each coerced to `None` when
the key is missing or its value is falsy (`x or None`), overwriting whatever
the fields held before; and every other field of the package is unchanged. -/
theorem C10_support_mapper_assigns_both_and_only_those :
    ∀ (pkg : Package) (s : List (String × Json)),
      (support_mapper (.obj s) pkg).toOption.map (fun q =>
        (q.bug_tracking_url, q.code_view_url, q.ptype, q.primary_language, q.name,
         q.version, q.summary, q.keywords, q.homepage_url,
         q.asserted_license, q.vcs_tool, q.vcs_repository, q.dependencies)) =
      some (orNone (pyGet s "issues"), orNone (pyGet s "source"), pkg.ptype,
        pkg.primary_language, pkg.name, pkg.version, pkg.summary, pkg.keywords,
        pkg.homepage_url, pkg.asserted_license, pkg.vcs_tool,
        pkg.vcs_repository, pkg.dependencies) :=
  fun _ _ => rfl

/-- Claim C9: the claim states that every list-typed field and the
dependencies mapping of a freshly constructed `Package` default to a per-
instance empty container, with no sharing between instances. In the source,
`BaseListType` passes `default=[]` and `dependencies` is declared with
`default={}`: the container literal is evaluated once at class-definition
time and the schematics `default` property hands the same object to every
instance. At module load all defaults are indeed empty and present (first two
conjuncts) — but the two separately constructed instances `pkgA` and `pkgB`
resolve their fields to the same heap objects, so appending a party through
`pkgA` becomes visible through `pkgB`, and a dependency group installed
through `pkgA` appears in `pkgB` as well (last two conjuncts), refuting the
no-sharing claim. -/
theorem C9_default_containers_are_shared :
    (SchematicsDefaults.listFieldNames.all (fun f =>
        SchematicsDefaults.readListField SchematicsDefaults.demoHeap0
          SchematicsDefaults.pkgA f == some []) = true) ∧
    SchematicsDefaults.readDependencies SchematicsDefaults.demoHeap0
      SchematicsDefaults.pkgA = some [] ∧
    SchematicsDefaults.readListField SchematicsDefaults.heapAfterAppend
      SchematicsDefaults.pkgB "authors" = some ["party-added-via-A"] ∧
    SchematicsDefaults.readDependencies SchematicsDefaults.heapAfterDeps
      SchematicsDefaults.pkgB = some [("runtime", ["php >=7.0"])] := by
  refine ⟨?_, ?_, ?_, ?_⟩ <;> decide

theorem groupOf_congr {p r : Package} (h : p.dependencies = r.dependencies)
    (g : String) : groupOf p g = groupOf r g := by
  unfold groupOf
  rw [h]

theorem obj_truthy {o : List (String × Json)} (h : o ≠ []) :
    (Json.obj o).truthy = true := by
  simp [Json.truthy, List.isEmpty_iff, h]

/-- Claim C2: each `require` pair becomes exactly one dependency entry, name
and version-constraint verbatim, in the `runtime` group; `require-dev` pairs
go to `development`; a deps mapper appends to an existing group list instead
of replacing it (visible in the `groupOf pkg g ++ ...` shape over an
arbitrary starting package) and leaves every other group untouched (the
`else` branch); and through `build_package`, a manifest with truthy `require`
and `require-dev` objects yields exactly the two groups, the `runtime` group
holding one entry per `require` pair, undisturbed by `require-dev`. -/
theorem C2_require_pairs_become_grouped_dependencies :
    (∀ (pkg : Package) (pairs : List (String × Json)) (g : String),
      (dependencies_mapper (.obj pairs) pkg).toOption.map (fun q => groupOf q g) =
        some (if g = dep_runtime
              then groupOf pkg g ++
                pairs.map (fun kv => DepEntry.mk "phpcomposer" kv.1 kv.2)
              else groupOf pkg g)) ∧
    (∀ (pkg : Package) (pairs : List (String × Json)) (g : String),
      (dev_dependencies_mapper (.obj pairs) pkg).toOption.map (fun q => groupOf q g) =
        some (if g = dep_dev
              then groupOf pkg g ++
                pairs.map (fun kv => DepEntry.mk "phpcomposer" kv.1 kv.2)
              else groupOf pkg g)) ∧
    (∀ (pru : String → Option String) (m : List (String × Json))
       (rp dp : List (String × Json)) (q : Package),
      pyGet m "require" = some (.obj rp) → rp ≠ [] →
      pyGet m "require-dev" = some (.obj dp) → dp ≠ [] →
      build_package pru m = .ok q →
      groupOf q dep_runtime = rp.map (fun kv => DepEntry.mk "phpcomposer" kv.1 kv.2) ∧
      groupOf q dep_dev = dp.map (fun kv => DepEntry.mk "phpcomposer" kv.1 kv.2)) := by
  refine ⟨?_, ?_, ?_⟩
  · intro pkg pairs g
    unfold dependencies_mapper
    obtain ⟨q, hq⟩ := deps_mapper_obj_ok pkg pairs
      (rfl : assocGet dep_types "dependencies" = some dep_runtime)
    rw [hq]
    dsimp [Except.toOption]
    rw [deps_mapper_groupOf (rfl : assocGet dep_types "dependencies" = some dep_runtime)
      hq g]
  · intro pkg pairs g
    unfold dev_dependencies_mapper
    obtain ⟨q, hq⟩ := deps_mapper_obj_ok pkg pairs
      (rfl : assocGet dep_types "devDependencies" = some dep_dev)
    rw [hq]
    dsimp [Except.toOption]
    rw [deps_mapper_groupOf (rfl : assocGet dep_types "devDependencies" = some dep_dev)
      hq g]
  · intro pru m rp dp q hr hrne hd hdne hok
    obtain ⟨p2, p3, p4, p5, p6, p7, h2, h3, h4, h5, h6, h7, hv⟩ :=
      build_package_ok_chain hok
    have hp1 : (plainFields m ({} : Package)).dependencies = [] :=
      (plainFields_frame m {}).2.2.1
    have hp2 : p2.dependencies = [] := by
      rw [applyMapper_pres_field (fun x => x.dependencies)
        (fun v a b hb => (author_mapper_frame hb).2.2.2.1) h2, hp1]
    have hp3 : p3.dependencies = [] := by
      rw [applyMapper_pres_field (fun x => x.dependencies)
        (fun v a b hb => (licensing_mapper_frame hb).2.2.1) h3, hp2]
    have htr : (stripIfStr (Json.obj rp)).truthy = true := obj_truthy hrne
    rw [applyMapper_hit p3 hr htr] at h4
    dsimp [stripIfStr] at h4
    unfold dependencies_mapper at h4
    have h4g := deps_mapper_groupOf
      (rfl : assocGet dep_types "dependencies" = some dep_runtime) h4
    have htd : (stripIfStr (Json.obj dp)).truthy = true := obj_truthy hdne
    rw [applyMapper_hit p4 hd htd] at h5
    dsimp [stripIfStr] at h5
    unfold dev_dependencies_mapper at h5
    have h5g := deps_mapper_groupOf
      (rfl : assocGet dep_types "devDependencies" = some dep_dev) h5
    have hq6 : p6.dependencies = p5.dependencies :=
      applyMapper_pres_field (fun x => x.dependencies)
        (fun v a b hb => (repository_mapper_frame hb).2.2.2) h6
    have hq7 : p7.dependencies = p6.dependencies :=
      applyMapper_pres_field (fun x => x.dependencies)
        (fun v a b hb => (support_mapper_frame hb).2.2.2.1) h7
    have hqv : q.dependencies = p7.dependencies := (vendor_mapper_frame hv).2.2.2.1
    have hq5 : q.dependencies = p5.dependencies := by rw [hqv, hq7, hq6]
    have hgq : ∀ g, groupOf q g = groupOf p5 g := fun g => groupOf_congr hq5 g
    have hrt_ne : dep_runtime ≠ dep_dev := by decide
    constructor
    · rw [hgq dep_runtime, h5g dep_runtime, if_neg hrt_ne, h4g dep_runtime,
          if_pos rfl]
      unfold groupOf
      rw [hp3]
      simp [assocGet]
    · rw [hgq dep_dev, h5g dep_dev, if_pos rfl, h4g dep_dev,
          if_neg (fun hh => hrt_ne hh.symm)]
      unfold groupOf
      rw [hp3]
      simp [assocGet]

/-- Witness for C2 at the manifest of the spec's example: `require` with
`php` and `monolog/monolog` and a subsequent `require-dev` with one entry. -/
theorem C2_require_pairs_become_grouped_dependencies_witness :
    build_package pruId
        [("require", Json.obj [("php", Json.str ">=7.0"),
                               ("monolog/monolog", Json.str "^1.0")]),
         ("require-dev", Json.obj [("phpunit/phpunit", Json.str "^6.0")])] =
      .ok { dependencies :=
              [(dep_runtime,
                [DepEntry.mk "phpcomposer" "php" (Json.str ">=7.0"),
                 DepEntry.mk "phpcomposer" "monolog/monolog" (Json.str "^1.0")]),
               (dep_dev,
                [DepEntry.mk "phpcomposer" "phpunit/phpunit" (Json.str "^6.0")])] } ∧
    groupOf { dependencies :=
              [(dep_runtime,
                [DepEntry.mk "phpcomposer" "php" (Json.str ">=7.0"),
                 DepEntry.mk "phpcomposer" "monolog/monolog" (Json.str "^1.0")]),
               (dep_dev,
                [DepEntry.mk "phpcomposer" "phpunit/phpunit" (Json.str "^6.0")])] }
        dep_runtime =
      [DepEntry.mk "phpcomposer" "php" (Json.str ">=7.0"),
       DepEntry.mk "phpcomposer" "monolog/monolog" (Json.str "^1.0")] ∧
    groupOf { dependencies :=
              [(dep_runtime,
                [DepEntry.mk "phpcomposer" "php" (Json.str ">=7.0"),
                 DepEntry.mk "phpcomposer" "monolog/monolog" (Json.str "^1.0")]),
               (dep_dev,
                [DepEntry.mk "phpcomposer" "phpunit/phpunit" (Json.str "^6.0")])] }
        dep_dev =
      [DepEntry.mk "phpcomposer" "phpunit/phpunit" (Json.str "^6.0")] := by
  refine ⟨rfl, ?_, ?_⟩
  · exact (C2_require_pairs_become_grouped_dependencies.2.2 pruId
      [("require", Json.obj [("php", Json.str ">=7.0"),
                             ("monolog/monolog", Json.str "^1.0")]),
       ("require-dev", Json.obj [("phpunit/phpunit", Json.str "^6.0")])]
      [("php", Json.str ">=7.0"), ("monolog/monolog", Json.str "^1.0")]
      [("phpunit/phpunit", Json.str "^6.0")]
      { dependencies :=
          [(dep_runtime,
            [DepEntry.mk "phpcomposer" "php" (Json.str ">=7.0"),
             DepEntry.mk "phpcomposer" "monolog/monolog" (Json.str "^1.0")]),
           (dep_dev,
            [DepEntry.mk "phpcomposer" "phpunit/phpunit" (Json.str "^6.0")])] }
      rfl (List.cons_ne_nil _ _) rfl (List.cons_ne_nil _ _) rfl).1
  · exact (C2_require_pairs_become_grouped_dependencies.2.2 pruId
      [("require", Json.obj [("php", Json.str ">=7.0"),
                             ("monolog/monolog", Json.str "^1.0")]),
       ("require-dev", Json.obj [("phpunit/phpunit", Json.str "^6.0")])]
      [("php", Json.str ">=7.0"), ("monolog/monolog", Json.str "^1.0")]
      [("phpunit/phpunit", Json.str "^6.0")]
      { dependencies :=
          [(dep_runtime,
            [DepEntry.mk "phpcomposer" "php" (Json.str ">=7.0"),
             DepEntry.mk "phpcomposer" "monolog/monolog" (Json.str "^1.0")]),
           (dep_dev,
            [DepEntry.mk "phpcomposer" "phpunit/phpunit" (Json.str "^6.0")])] }
      rfl (List.cons_ne_nil _ _) rfl (List.cons_ne_nil _ _) rfl).2

/-- Claim C4: a repositories entry declared `"type": "vcs"` gets its VCS tool
inferred from the url in the source's priority order — svn prefix or the
subversion host, else hg prefix or the mercurial host, else fossil prefix or
the fossil host, else git — and the normalized url (`pru`, the abstracted
`parse_repo_url`) is recorded in `vcs_repository`. In particular a github
https url yields `git` and a url starting with `svn` yields `svn`; and a
repositories list all of whose entries declare any other type leaves the
package completely unchanged. -/
theorem C4_repository_vcs_tool_inference :
    (∀ (pru : String → Option String) (pkg : Package) (u : String),
      repository_mapper pru
          (.arr [.obj [("type", Json.str "vcs"), ("url", Json.str u)]]) pkg =
        .ok { pkg with
                vcs_tool := some
                  (if pyStartsWith u "svn" || pyInStr "subversion.apache.org" u
                   then "svn"
                   else if pyStartsWith u "hg" || pyInStr "mercurial.selenic.com" u
                   then "hg"
                   else if pyStartsWith u "fossil" || pyInStr "fossil-scm.org" u
                   then "fossil"
                   else "git"),
                vcs_repository := pru u }) ∧
    (∀ (pru : String → Option String) (pkg : Package),
      repository_mapper pru
          (.arr [.obj [("type", Json.str "vcs"),
                       ("url", Json.str "https://github.com/x/y")]]) pkg =
        .ok { pkg with vcs_tool := some "git",
                       vcs_repository := pru "https://github.com/x/y" }) ∧
    (∀ (pru : String → Option String) (pkg : Package) (u : String),
      pyStartsWith u "svn" = true →
      repository_mapper pru
          (.arr [.obj [("type", Json.str "vcs"), ("url", Json.str u)]]) pkg =
        .ok { pkg with vcs_tool := some "svn", vcs_repository := pru u }) ∧
    (∀ (pru : String → Option String) (pkg : Package) (entries : List Json),
      entries.all nonVcsObj = true →
      repository_mapper pru (.arr entries) pkg = .ok pkg) := by
  refine ⟨fun _ _ _ => rfl, fun _ _ => rfl, ?_, ?_⟩
  · intro pru pkg u h
    have hsvn : vcsToolFor u = "svn" := by simp [vcsToolFor, h]
    have h1 : repository_mapper pru
        (.arr [.obj [("type", Json.str "vcs"), ("url", Json.str u)]]) pkg =
        .ok { pkg with vcs_tool := some (vcsToolFor u), vcs_repository := pru u } := rfl
    rw [h1, hsvn]
  · intro pru pkg entries hall
    by_cases he : entries = []
    · subst he
      rfl
    · have ht : (Json.arr entries).truthy = true := by
        simp [Json.truthy, List.isEmpty_iff, he]
      unfold repository_mapper
      rw [ht]
      dsimp
      exact repoLoop_all_nonvcs entries pkg hall

/-- Witness for C4: the svn-prefix case at `svn://host/repo` and the
skip-other-types case at a `composer`-typed repository entry. -/
theorem C4_repository_vcs_tool_inference_witness :
    pyStartsWith "svn://host/repo" "svn" = true ∧
    repository_mapper pruId
        (.arr [.obj [("type", Json.str "vcs"),
                     ("url", Json.str "svn://host/repo")]]) {} =
      .ok { vcs_tool := some "svn", vcs_repository := some "svn://host/repo" } ∧
    [Json.obj [("type", Json.str "composer"),
               ("url", Json.str "http://packages.example.com")]].all nonVcsObj = true ∧
    repository_mapper pruId
        (.arr [Json.obj [("type", Json.str "composer"),
                         ("url", Json.str "http://packages.example.com")]]) {} =
      .ok {} :=
  ⟨rfl,
   C4_repository_vcs_tool_inference.2.2.1 pruId {} "svn://host/repo" rfl,
   rfl,
   C4_repository_vcs_tool_inference.2.2.2 pruId {}
     [Json.obj [("type", Json.str "composer"),
                ("url", Json.str "http://packages.example.com")]] rfl⟩

/-- Claim C6 counterexample: the claim says every `Package` returned by
`build_package` has non-empty `type` AND non-empty `name`. But the parser
deliberately accepts manifests without a usable name (phpcomposer.py lines
110-114 explain that non-published packages are wanted too): on the empty
manifest it returns a package whose `name` is `None` — the name half of the
claim is false. -/
theorem C6_counterexample_nameless_manifest :
    build_package pruId [] = .ok ({} : Package) ∧
    ({} : Package).name = none ∧
    ({} : Package).ptype = "phpcomposer" :=
  ⟨rfl, rfl, rfl⟩

/-- Claim C6 (amended): every package `build_package` returns carries the
non-empty class default `type = "phpcomposer"`; and whenever the manifest has
a `name` entry that is a string non-empty after stripping AND `build_package`
returns a package at all, that package's `name` is the stripped string (hence
non-empty). A manifest whose `name` is missing or blank yields a package with
`name` unset; a name containing `/` with a non-empty vendor part makes
`vendor_mapper` raise the parties `AttributeError` instead of returning. -/
theorem C6_type_always_name_when_manifest_has_one :
    (∀ (pru : String → Option String) (m : List (String × Json)) (q : Package),
      build_package pru m = .ok q → q.ptype = "phpcomposer" ∧ q.ptype ≠ "") ∧
    (∀ (pru : String → Option String) (m : List (String × Json)) (s : String)
       (q : Package),
      pyGet m "name" = some (.str s) → pyStrip s ≠ "" →
      build_package pru m = .ok q →
      q.name = some (.str (pyStrip s)) ∧ some (Json.str (pyStrip s)) ≠ none) := by
  constructor
  · intro pru m q hok
    obtain ⟨p2, p3, p4, p5, p6, p7, h2, h3, h4, h5, h6, h7, hv⟩ :=
      build_package_ok_chain hok
    have e2 : p2.ptype = (plainFields m {}).ptype :=
      applyMapper_pres_field (fun x => x.ptype)
        (fun v a b hb => (author_mapper_frame hb).1) h2
    have e3 : p3.ptype = p2.ptype :=
      applyMapper_pres_field (fun x => x.ptype)
        (fun v a b hb => (licensing_mapper_frame hb).1) h3
    have e4 : p4.ptype = p3.ptype :=
      applyMapper_pres_field (fun x => x.ptype)
        (fun v a b hb => (deps_mapper_frame hb).1) h4
    have e5 : p5.ptype = p4.ptype :=
      applyMapper_pres_field (fun x => x.ptype)
        (fun v a b hb => (deps_mapper_frame hb).1) h5
    have e6 : p6.ptype = p5.ptype :=
      applyMapper_pres_field (fun x => x.ptype)
        (fun v a b hb => (repository_mapper_frame hb).1) h6
    have e7 : p7.ptype = p6.ptype :=
      applyMapper_pres_field (fun x => x.ptype)
        (fun v a b hb => (support_mapper_frame hb).1) h7
    have ev : q.ptype = p7.ptype := (vendor_mapper_frame hv).1
    have : q.ptype = "phpcomposer" := by
      rw [ev, e7, e6, e5, e4, e3, e2]
      exact (plainFields_frame m {}).1
    exact ⟨this, by rw [this]; decide⟩
  · intro pru m s q hg hs hok
    obtain ⟨p2, p3, p4, p5, p6, p7, h2, h3, h4, h5, h6, h7, hv⟩ :=
      build_package_ok_chain hok
    have hn1 : (plainFields m ({} : Package)).name = some (.str (pyStrip s)) := by
      rw [plainFields_name, plainValue_str hg hs]
      rfl
    have e2 : p2.name = (plainFields m {}).name :=
      applyMapper_pres_field (fun x => x.name)
        (fun v a b hb => (author_mapper_frame hb).2.1) h2
    have e3 : p3.name = p2.name :=
      applyMapper_pres_field (fun x => x.name)
        (fun v a b hb => (licensing_mapper_frame hb).2.1) h3
    have e4 : p4.name = p3.name :=
      applyMapper_pres_field (fun x => x.name)
        (fun v a b hb => (deps_mapper_frame hb).2.1) h4
    have e5 : p5.name = p4.name :=
      applyMapper_pres_field (fun x => x.name)
        (fun v a b hb => (deps_mapper_frame hb).2.1) h5
    have e6 : p6.name = p5.name :=
      applyMapper_pres_field (fun x => x.name)
        (fun v a b hb => (repository_mapper_frame hb).2.1) h6
    have e7 : p7.name = p6.name :=
      applyMapper_pres_field (fun x => x.name)
        (fun v a b hb => (support_mapper_frame hb).2.1) h7
    have ev : q.name = p7.name := (vendor_mapper_frame hv).2.1
    refine ⟨by rw [ev, e7, e6, e5, e4, e3, e2, hn1], by simp⟩

/-- Witness for C6 (amended) at the manifest `{"name": " widget "}` (a
slash-free name: a slashed name such as `acme/widget` would make
`vendor_mapper` raise the parties `AttributeError`, so `build_package` would
not return a package at all). -/
theorem C6_type_always_name_when_manifest_has_one_witness :
    build_package pruId [("name", Json.str " widget ")] =
      .ok { name := some (.str "widget") } ∧
    ({ name := some (.str "widget") } : Package).ptype = "phpcomposer" ∧
    ({ name := some (.str "widget") } : Package).name =
      some (.str (pyStrip " widget ")) :=
  ⟨rfl,
   (C6_type_always_name_when_manifest_has_one.1 pruId
     [("name", Json.str " widget ")]
     { name := some (.str "widget") } rfl).1,
   (C6_type_always_name_when_manifest_has_one.2 pruId
     [("name", Json.str " widget ")] " widget "
     { name := some (.str "widget") } rfl (by decide) rfl).1⟩

theorem author_mapper_nonlist {v : Json} (pkg : Package) (h : v.isArr = false) :
    author_mapper v pkg =
      .error (.valueError ("Incorrect PHP composer persons: " ++ pyRepr v)) := by
  cases v <;> simp_all [author_mapper, Json.isArr]

/-- Claim C5: the claim states the authors mapper adds one person-typed
`Party` per author object (with stripped fields) and that only a present
non-list value fails the whole mapper. The non-list half is faithful: any
non-list raises `ValueError("Incorrect PHP composer persons: ...")`, also
through `build_package`, and no partially-filled package escapes. But the
list half contradicts the tree's own model: `models.py`'s `Package` declares
no `parties` attribute (and its `Party` no `role` field), so
`package.parties.append(...)` at phpcomposer.py line 185 raises
`AttributeError` at the FIRST author of every non-empty authors list — right
after the `parse_person` generator has yielded that author's parsed tuple —
and no `Party` is ever attached. The mapper's own docstring ("Update package
parties with authors and return package") can never hold, so the claim
describes the intent and the code is out of sync with the model: a code bug,
evaluated below at a concrete author list. -/
theorem C5_author_mapper_parties_attribute_error :
    (∀ (pkg : Package) (p0 : Json) (rest : List Json) (t : PersonTuple),
      parse_one_person p0 = .ok t →
      author_mapper (.arr (p0 :: rest)) pkg = .error (.attributeError "parties")) ∧
    (∀ (pkg : Package) (v : Json), v.isArr = false →
      author_mapper v pkg =
        .error (.valueError ("Incorrect PHP composer persons: " ++ pyRepr v))) ∧
    (∀ (pru : String → Option String) (m : List (String × Json)) (v : Json),
      pyGet m "authors" = some v → (stripIfStr v).truthy = true →
      (stripIfStr v).isArr = false →
      build_package pru m =
        .error (.valueError ("Incorrect PHP composer persons: " ++
          pyRepr (stripIfStr v)))) ∧
    (∀ (pru : String → Option String) (m : List (String × Json)) (p0 : Json)
       (rest : List Json) (t : PersonTuple),
      pyGet m "authors" = some (.arr (p0 :: rest)) → parse_one_person p0 = .ok t →
      build_package pru m = .error (.attributeError "parties")) ∧
    author_mapper (.arr [.obj [("name", Json.str "Nils Adermann")]]) {} =
      .error (.attributeError "parties") := by
  refine ⟨?_, fun pkg v h => author_mapper_nonlist pkg h, ?_, ?_, rfl⟩
  · intro pkg p0 rest t hpt
    simp only [author_mapper]
    rw [hpt]
    rfl
  · intro pru m v hg ht ha
    unfold build_package
    rw [applyMapper_hit (plainFields m {}) hg ht, author_mapper_nonlist _ ha]
    rfl
  · intro pru m p0 rest t hg hpt
    have ht : (stripIfStr (Json.arr (p0 :: rest))).truthy = true := rfl
    unfold build_package
    rw [applyMapper_hit (plainFields m {}) hg ht]
    dsimp only [stripIfStr]
    simp only [author_mapper]
    rw [hpt]
    rfl

/-- Witness for C5: the first author of `[{"name": "Nils Adermann"}]` parses
to its tuple and the mapper still raises the parties `AttributeError`, also
through `build_package`; and a non-list `authors` value raises the
`ValueError`, both directly and through `build_package`. -/
theorem C5_author_mapper_parties_attribute_error_witness :
    parse_one_person (.obj [("name", Json.str "Nils Adermann")]) =
      .ok { name := some (Json.str "Nils Adermann"), role := none,
            email := none, url := none } ∧
    author_mapper (.arr [.obj [("name", Json.str "Nils Adermann")]]) {} =
      .error (.attributeError "parties") ∧
    author_mapper (Json.str "Bob") {} =
      .error (.valueError ("Incorrect PHP composer persons: " ++
        pyRepr (Json.str "Bob"))) ∧
    build_package pruId [("authors", Json.str " Bob ")] =
      .error (.valueError ("Incorrect PHP composer persons: " ++
        pyRepr (stripIfStr (Json.str " Bob ")))) ∧
    build_package pruId
        [("authors", Json.arr [.obj [("name", Json.str "Nils Adermann")]])] =
      .error (.attributeError "parties") ∧
    pyRepr (Json.str "Bob") = "u\x27Bob\x27" := by
  refine ⟨rfl, ?_, ?_, ?_, ?_, ?_⟩
  · exact C5_author_mapper_parties_attribute_error.1 {}
      (.obj [("name", Json.str "Nils Adermann")]) []
      { name := some (Json.str "Nils Adermann"), role := none,
        email := none, url := none } rfl
  · exact C5_author_mapper_parties_attribute_error.2.1 {} (Json.str "Bob") rfl
  · exact C5_author_mapper_parties_attribute_error.2.2.1 pruId
      [("authors", Json.str " Bob ")] (Json.str " Bob ") rfl rfl rfl
  · exact C5_author_mapper_parties_attribute_error.2.2.2.1 pruId
      [("authors", Json.arr [.obj [("name", Json.str "Nils Adermann")]])]
      (.obj [("name", Json.str "Nils Adermann")]) []
      { name := some (Json.str "Nils Adermann"), role := none,
        email := none, url := none } rfl rfl
  · simp [pyRepr]

theorem chain_tail_preserves_asserted {m : List (String × Json)}
    {pru : String → Option String} {p3 p4 p5 p6 p7 q : Package}
    (h4 : applyMapper m "require" dependencies_mapper p3 = .ok p4)
    (h5 : applyMapper m "require-dev" dev_dependencies_mapper p4 = .ok p5)
    (h6 : applyMapper m "repositories" (repository_mapper pru) p5 = .ok p6)
    (h7 : applyMapper m "support" support_mapper p6 = .ok p7)
    (hv : vendor_mapper p7 = .ok q) :
    q.asserted_license = p3.asserted_license := by
  have e4 : p4.asserted_license = p3.asserted_license :=
    applyMapper_pres_field (fun x => x.asserted_license)
      (fun v a b hb => (deps_mapper_frame hb).2.2.1) h4
  have e5 : p5.asserted_license = p4.asserted_license :=
    applyMapper_pres_field (fun x => x.asserted_license)
      (fun v a b hb => (deps_mapper_frame hb).2.2.1) h5
  have e6 : p6.asserted_license = p5.asserted_license :=
    applyMapper_pres_field (fun x => x.asserted_license)
      (fun v a b hb => (repository_mapper_frame hb).2.2.1) h6
  have e7 : p7.asserted_license = p6.asserted_license :=
    applyMapper_pres_field (fun x => x.asserted_license)
      (fun v a b hb => (support_mapper_frame hb).2.2.1) h7
  have ev := (vendor_mapper_frame hv).2.2.1
  rw [ev, e7, e6, e5, e4]

/-- Claim C1 counterexample: the claim says a manifest whose `license` is a
non-empty string gives `asserted_license` equal to that string VERBATIM, and
that a list value gives the `" OR "`-join of its trimmed non-empty entries.
Both fail at the boundary: the string `" MIT "` (non-empty) is stripped by
`build_package` before the mapper runs, yielding `"MIT"`, not the verbatim
`" MIT "`; and the empty list — for which the claimed join is `""` — is falsy
and silently skipped, leaving `asserted_license` unset (`None`), not `""`. -/
theorem C1_counterexample_strip_and_empty_list :
    (build_package pruId [("license", Json.str " MIT ")]).toOption.map
      Package.asserted_license = some (some "MIT") ∧
    " MIT " ≠ "MIT" ∧
    (build_package pruId [("license", Json.arr [])]).toOption.map
      Package.asserted_license = some none ∧
    String.intercalate " OR " (trimmedLicenseEntries []) = "" ∧
    (none : Option String) ≠ some "" :=
  ⟨rfl, by decide, rfl, rfl, by decide⟩

/-- Claim C1 (amended): for a manifest whose `license` value is a string that
is non-empty after trimming, the parsed package's `asserted_license` is that
string with surrounding whitespace stripped (no `OR` added); for a non-empty
list value whose truthy entries are strings, it is the `" OR "`-join of the
trimmed non-empty entries; for any other truthy shape it is the value's
literal textual representation (`repr`); and a present license value that is
still truthy after string-stripping is never silently dropped. Falsy values
(empty string, blank string, empty list) leave `asserted_license` unset. -/
theorem C1_license_normalization :
    (∀ (pru : String → Option String) (m : List (String × Json)) (s : String)
       (q : Package),
      pyGet m "license" = some (.str s) → pyStrip s ≠ "" →
      build_package pru m = .ok q →
      q.asserted_license = some (pyStrip s)) ∧
    (∀ (pru : String → Option String) (m : List (String × Json)) (l : List Json)
       (q : Package),
      pyGet m "license" = some (.arr l) → l ≠ [] →
      (∀ j ∈ l, j.truthy = true → ∃ s, j = .str s) →
      build_package pru m = .ok q →
      q.asserted_license =
        some (String.intercalate " OR " (trimmedLicenseEntries l))) ∧
    (∀ (pru : String → Option String) (m : List (String × Json)) (v : Json)
       (q : Package),
      pyGet m "license" = some v → v.truthy = true → v.isArr = false →
      (∀ s, v ≠ .str s) →
      build_package pru m = .ok q →
      q.asserted_license = some (pyRepr v)) ∧
    (∀ (pru : String → Option String) (m : List (String × Json)) (v : Json)
       (q : Package),
      pyGet m "license" = some v → (stripIfStr v).truthy = true →
      build_package pru m = .ok q →
      q.asserted_license ≠ none) := by
  refine ⟨?_, ?_, ?_, ?_⟩
  · intro pru m s q hg hs hok
    obtain ⟨p2, p3, p4, p5, p6, p7, h2, h3, h4, h5, h6, h7, hv⟩ :=
      build_package_ok_chain hok
    have ht : (stripIfStr (Json.str s)).truthy = true := by
      simp [stripIfStr, Json.truthy]
      exact hs
    rw [applyMapper_hit p2 hg ht] at h3
    dsimp [stripIfStr] at h3
    rw [licensing_mapper_str hs p2] at h3
    injection h3 with h3
    rw [chain_tail_preserves_asserted h4 h5 h6 h7 hv, ← h3]
  · intro pru m l q hg hl hsh hok
    obtain ⟨p2, p3, p4, p5, p6, p7, h2, h3, h4, h5, h6, h7, hv⟩ :=
      build_package_ok_chain hok
    have ht : (stripIfStr (Json.arr l)).truthy = true := by
      simp [stripIfStr, Json.truthy, List.isEmpty_iff, hl]
    rw [applyMapper_hit p2 hg ht] at h3
    dsimp [stripIfStr] at h3
    rw [licensing_mapper_arr hl (stripTruthyStrings_eq hsh) p2] at h3
    injection h3 with h3
    rw [chain_tail_preserves_asserted h4 h5 h6 h7 hv, ← h3]
  · intro pru m v q hg htv harr hstr hok
    obtain ⟨p2, p3, p4, p5, p6, p7, h2, h3, h4, h5, h6, h7, hv⟩ :=
      build_package_ok_chain hok
    have hsv : stripIfStr v = v := stripIfStr_non_str hstr
    have ht : (stripIfStr v).truthy = true := by rw [hsv]; exact htv
    rw [applyMapper_hit p2 hg ht] at h3
    rw [hsv] at h3
    rw [licensing_mapper_other htv harr hstr p2] at h3
    injection h3 with h3
    rw [chain_tail_preserves_asserted h4 h5 h6 h7 hv, ← h3]
  · intro pru m v q hg ht hok
    obtain ⟨p2, p3, p4, p5, p6, p7, h2, h3, h4, h5, h6, h7, hv⟩ :=
      build_package_ok_chain hok
    rw [applyMapper_hit p2 hg ht] at h3
    obtain ⟨s, hset⟩ := licensing_mapper_sets ht h3
    rw [chain_tail_preserves_asserted h4 h5 h6 h7 hv, hset]
    simp

/-- Witness for C1 (amended): the string case at `"MIT"`, the list case at
`["MIT", " Apache-2.0 "]` (trimmed and joined to `"MIT OR Apache-2.0"`), the
other-shape case at JSON `true` (captured as repr `"True"`), and the
never-dropped case. -/
theorem C1_license_normalization_witness :
    build_package pruId [("license", Json.str "MIT")] =
      .ok { asserted_license := some "MIT" } ∧
    ({ asserted_license := some "MIT" } : Package).asserted_license =
      some "MIT" ∧
    build_package pruId
        [("license", Json.arr [Json.str "MIT", Json.str " Apache-2.0 "])] =
      .ok { asserted_license := some "MIT OR Apache-2.0" } ∧
    ({ asserted_license := some "MIT OR Apache-2.0" } : Package).asserted_license =
      some "MIT OR Apache-2.0" ∧
    build_package pruId [("license", Json.bool true)] =
      .ok { asserted_license := some (pyRepr (Json.bool true)) } ∧
    ({ asserted_license := some (pyRepr (Json.bool true)) } : Package).asserted_license =
      some (pyRepr (Json.bool true)) ∧
    pyRepr (Json.bool true) = "True" ∧
    ({ asserted_license := some "MIT" } : Package).asserted_license ≠ none :=
  ⟨rfl,
   C1_license_normalization.1 pruId [("license", Json.str "MIT")] "MIT"
     { asserted_license := some "MIT" } rfl (by decide) rfl,
   rfl,
   C1_license_normalization.2.1 pruId
     [("license", Json.arr [Json.str "MIT", Json.str " Apache-2.0 "])]
     [Json.str "MIT", Json.str " Apache-2.0 "]
     { asserted_license := some "MIT OR Apache-2.0" } rfl
     (List.cons_ne_nil _ _)
     (by
       intro j hj _
       simp only [List.mem_cons, List.mem_singleton, List.not_mem_nil,
         or_false] at hj
       rcases hj with h | h
       · exact ⟨_, h⟩
       · exact ⟨_, h⟩)
     rfl,
   rfl,
   C1_license_normalization.2.2.1 pruId [("license", Json.bool true)]
     (Json.bool true) { asserted_license := some (pyRepr (Json.bool true)) }
     rfl rfl rfl (fun s h => Json.noConfusion h) rfl,
   by simp [pyRepr],
   C1_license_normalization.2.2.2 pruId [("license", Json.str "MIT")]
     (Json.str "MIT") { asserted_license := some "MIT" } rfl rfl rfl⟩
